import Mathlib

/-!
Shallow embedding of `acoustic_punctuation/__init__.py`.

The repository's only source file defines `main(config, tr_stream, dev_stream,
use_bokeh=False)`, which builds a Theano computation graph for a punctuation
prediction model, applies optional regularization, assembles a list of Blocks
training-loop extensions and launches the main loop.  We embed that function
as a pure Lean function from a `Config` record (the configuration mapping) to
`Except MainError MainResult`, where `MainResult` records the symbolic objects
`main` constructs: the encoder and decoder bricks, the cost expression, the
regularized computation graph, the optional sampling/beam-search graph, the
extension list and the training algorithm.  External framework objects
(Theano tensors, bricks, extensions, step rules) are represented symbolically
by constructors that record exactly the arguments the Python code passes.
A Python `NameError` (reading a variable no branch defined) is modelled as
`Except.error (MainError.nameError v)`.
-/

namespace NMT

/-- A symbolic Theano variable, recording the constructor and name used in the
source (`tensor.lmatrix('words')`, …).  `onesLike v` stands for
`tensor.ones((v.shape[0], v.shape[1]))`. -/
inductive TheanoVar where
  | lmatrix (nm : String)
  | matrix (nm : String)
  | ftensor3 (nm : String)
  | onesLike (v : TheanoVar)
deriving DecidableEq, Repr

/-- The encoder brick `main` constructs: `BidirectionalEncoder(src_vocab_size,
enc_embed, enc_nhids)` in the words branch, `BidirectionalAudioEncoder(
audio_feat_size, enc_embed, enc_nhids)` in the audio branch. -/
inductive Encoder where
  | bidirectional (src_vocab_size enc_embed enc_nhids : Nat)
  | bidirectionalAudio (audio_feat_size enc_embed enc_nhids : Nat)
deriving DecidableEq, Repr

/-- The decoder brick: `Decoder(trg_vocab_size, dec_embed, dec_nhids,
enc_nhids * 2)`. -/
structure Decoder where
  trg_vocab_size : Nat
  dec_embed : Nat
  dec_nhids : Nat
  representation_dim : Nat
deriving DecidableEq, Repr

/-- Symbolic Theano expressions built by `main`: encoder application,
`decoder.cost(...)`, `decoder.generate(...)`, and tuple indexing
(`generated[1]`). -/
inductive Expr where
  | encoderApply (e : Encoder) (args : List TheanoVar)
  | decoderCost (d : Decoder) (representation : Expr)
      (mask marks marksMask : TheanoVar)
  | generate (d : Decoder) (representation : Expr)
  | component (e : Expr) (i : Nat)
deriving DecidableEq, Repr

/-- A parameter selection used by the weight-noise block: which brick's
parameters `Selector(...).get_params()` is taken from. -/
inductive ParamSel where
  | encLookup
  | encFwdFork
  | encBackFork
  | decReadout
  | decFork
  | decStateInit
deriving DecidableEq, Repr

/-- A computation graph together with the regularizations applied to it.
`applyDropout g nm l` records `apply_dropout(g, vars named nm, l)`;
`applyNoise g ps l` records `apply_noise(g, params of ps, l)`. -/
inductive CG where
  | base (cost : Expr)
  | applyDropout (g : CG) (targetName : String) (level : Rat)
  | applyNoise (g : CG) (targets : List ParamSel) (level : Rat)
deriving DecidableEq, Repr

/-- The dropout applications recorded in a computation graph, innermost first:
the filtered variable name and the dropout level of each `apply_dropout`. -/
def CG.dropoutApplications : CG → List (String × Rat)
  | .base _ => []
  | .applyDropout g nm l => (nm, l) :: g.dropoutApplications
  | .applyNoise g _ _ => g.dropoutApplications

/-- The weight-noise applications recorded in a computation graph, innermost
first: the selected parameter groups and the noise level of each
`apply_noise`. -/
def CG.noiseApplications : CG → List (List ParamSel × Rat)
  | .base _ => []
  | .applyDropout g _ _ => g.noiseApplications
  | .applyNoise g ps l => (ps, l) :: g.noiseApplications

/-- `Model(expr)` as used for the search model. -/
structure TheanoModel where
  top : Expr
deriving DecidableEq, Repr

/-- The `samples` variable: `VariableFilter(bricks=[decoder.sequence_generator],
name="outputs")(ComputationGraph(generated[1]))`. -/
structure SamplesVar where
  source : Expr
  brickPath : String
  filterName : String
deriving DecidableEq, Repr

/-- The objects built by the sampling/beam-search block (lines 140-157):
the search model `Model(generated)` and the filtered `samples` variable. -/
structure SamplingGraph where
  searchModel : TheanoModel
  samples : SamplesVar
deriving DecidableEq, Repr

/-- One of the two data streams `main` receives (`tr_stream`, `dev_stream`). -/
inductive DataStream where
  | tr
  | dev
deriving DecidableEq, Repr

set_option synthInstance.maxHeartbeats 1000000 in
/-- The configuration mapping consumed by `main`, with the keys the function
reads.  Python floats are embedded as rationals, `config['reload']`'s
truthiness as a `Bool`, vocabulary objects as abstract identifiers. -/
structure Config where
  input : String
  src_vocab_size : Nat
  trg_vocab_size : Nat
  enc_embed : Nat
  enc_nhids : Nat
  dec_embed : Nat
  dec_nhids : Nat
  audio_feat_size : Nat
  weight_scale : Rat
  dropout : Rat
  weight_noise_ff : Rat
  step_clipping : Rat
  step_rule : String
  saveto : String
  save_freq : Nat
  finish_after : Nat
  hook_samples : Int
  sampling_freq : Nat
  f1_validation : Option String
  f1_val_freq : Nat
  normalized_f1 : Bool
  src_vocab : String
  trg_vocab : String
  reload : Bool
deriving DecidableEq, Repr

/-- A training-loop extension, recording the constructor arguments the Python
code passes when appending it to `extensions`. -/
inductive Extension where
  | finishAfter (after_n_batches : Nat)
  | trainingDataMonitoring (monitored : List Expr) (after_batch : Bool)
  | printing (after_batch : Bool)
  | checkpointNMT (saveto : String) (every_n_batches : Nat)
  | sampler (model : TheanoModel) (data_stream : DataStream)
      (src_vocab trg_vocab : String) (hook_samples : Int)
      (every_n_batches : Nat) (src_vocab_size : Nat)
  | f1Validator (samples : SamplesVar) (config : Config) (model : TheanoModel)
      (data_stream : DataStream) (normalize : Bool) (every_n_batches : Nat)
  | loadNMT (saveto : String)
  | plot (title : String) (channels : List (List String)) (after_batch : Bool)
deriving DecidableEq, Repr

/-- Whether an extension is a `Sampler`. -/
def Extension.isSampler : Extension → Bool
  | .sampler _ _ _ _ _ _ _ => true
  | _ => false

/-- Whether an extension is an `F1Validator`. -/
def Extension.isF1Validator : Extension → Bool
  | .f1Validator _ _ _ _ _ _ => true
  | _ => false

/-- Whether an extension is a `CheckpointNMT`. -/
def Extension.isCheckpointNMT : Extension → Bool
  | .checkpointNMT _ _ => true
  | _ => false

/-- The search model an extension holds, when it holds one (`Sampler` and
`F1Validator` are both constructed with `model=search_model`). -/
def Extension.searchModelOf : Extension → Option TheanoModel
  | .sampler m _ _ _ _ _ _ => some m
  | .f1Validator _ _ m _ _ _ => some m
  | _ => none

/-- One component of the composite step rule:
`StepClipping(threshold)`, or the object obtained by evaluating the
configuration string with `eval(src)` and calling the result (`eval(src)()`). -/
inductive StepComponent where
  | stepClipping (threshold : Rat)
  | evaledRule (src : String)
deriving DecidableEq, Repr

/-- `GradientDescent(cost=..., parameters=cg.parameters, step_rule=
CompositeRule(stepRule), on_unused_sources='warn')`.  The composite rule is
embedded as the ordered list of its components. -/
structure Algorithm where
  cost : Expr
  parametersFrom : CG
  stepRule : List StepComponent
deriving DecidableEq, Repr

/-- `NameError` raised when a branch reads a variable no branch defined. -/
inductive MainError where
  | nameError (v : String)
deriving DecidableEq, Repr

/-- Everything `main` constructs before calling `main_loop.run()`. -/
structure MainResult where
  encoder : Encoder
  decoder : Decoder
  cost : Expr
  cg : CG
  samplingGraph : Option SamplingGraph
  extensions : List Extension
  algorithm : Algorithm
deriving DecidableEq, Repr

/-- Lines 41-74: the input-dependent graph construction.  `config["input"] ==
"words"` builds a `BidirectionalEncoder` over the word-index and mask
matrices; `config["input"] == "audio"` builds a `BidirectionalAudioEncoder`
over audio features, audio mask, word ends and their masks; any other value
leaves `encoder`, `decoder` and `cost` undefined (`none`). -/
def buildGraph (c : Config) : Option (Encoder × Decoder × Expr) :=
  if c.input = "words" then
    let encoder := Encoder.bidirectional c.src_vocab_size c.enc_embed c.enc_nhids
    let decoder : Decoder := ⟨c.trg_vocab_size, c.dec_embed, c.dec_nhids, c.enc_nhids * 2⟩
    some (encoder, decoder,
      Expr.decoderCost decoder
        (Expr.encoderApply encoder
          [TheanoVar.lmatrix "words", TheanoVar.matrix "words_mask"])
        (TheanoVar.matrix "words_mask")
        (TheanoVar.lmatrix "punctuation_marks")
        (TheanoVar.matrix "punctuation_marks_mask"))
  else if c.input = "audio" then
    let encoder := Encoder.bidirectionalAudio c.audio_feat_size c.enc_embed c.enc_nhids
    let decoder : Decoder := ⟨c.trg_vocab_size, c.dec_embed, c.dec_nhids, c.enc_nhids * 2⟩
    some (encoder, decoder,
      Expr.decoderCost decoder
        (Expr.encoderApply encoder
          [TheanoVar.ftensor3 "audio", TheanoVar.matrix "audio_mask",
           TheanoVar.lmatrix "words_ends", TheanoVar.matrix "words_ends_mask"])
        (TheanoVar.matrix "punctuation_marks_mask")
        (TheanoVar.lmatrix "punctuation_marks")
        (TheanoVar.matrix "punctuation_marks_mask"))
  else none

/-- The parameter groups the weight-noise block collects (lines 104-109):
`encoder.lookup`, `encoder.fwd_fork`, `encoder.back_fork`,
`decoder.sequence_generator.readout`, `decoder.sequence_generator.fork`,
`decoder.state_init`. -/
def noiseTargets : List ParamSel :=
  [ParamSel.encLookup, ParamSel.encFwdFork, ParamSel.encBackFork,
   ParamSel.decReadout, ParamSel.decFork, ParamSel.decStateInit]

/-- Lines 79-110: build `ComputationGraph(cost)`, then apply dropout to the
intermediary variables named `maxout_apply_output` when
`config['dropout'] < 1.0`, then apply weight noise to `noiseTargets` when
`config['weight_noise_ff'] > 0.0`. -/
def regularize (c : Config) (cost : Expr) : CG :=
  let cg0 := CG.base cost
  let cg1 := if c.dropout < 1 then CG.applyDropout cg0 "maxout_apply_output" c.dropout else cg0
  if 0 < c.weight_noise_ff then CG.applyNoise cg1 noiseTargets c.weight_noise_ff else cg1

/-- `Model(generated)` and the filtered `samples` variable, from
`generated = decoder.generate(sampling_representation)` (lines 153-157). -/
def samplingGraphOf (decoder : Decoder) (rep : Expr) : SamplingGraph :=
  let generated := Expr.generate decoder rep
  { searchModel := ⟨generated⟩,
    samples := { source := Expr.component generated 1,
                 brickPath := "decoder.sequence_generator",
                 filterName := "outputs" } }

/-- Lines 142-157: the sampling encoder application.  The words branch applies
the encoder to `sampling_words` and an all-ones mask; the audio branch to
`sampling_audio`, `sampling_words_ends` and all-ones masks; any other
`config["input"]` leaves `sampling_representation` undefined (`none`). -/
def buildSamplingGraph (c : Config) (encoder : Encoder) (decoder : Decoder) :
    Option SamplingGraph :=
  if c.input = "words" then
    let w := TheanoVar.lmatrix "sampling_words"
    some (samplingGraphOf decoder
      (Expr.encoderApply encoder [w, TheanoVar.onesLike w]))
  else if c.input = "audio" then
    let a := TheanoVar.ftensor3 "sampling_audio"
    let we := TheanoVar.lmatrix "sampling_words_ends"
    some (samplingGraphOf decoder
      (Expr.encoderApply encoder [a, TheanoVar.onesLike a, we, TheanoVar.onesLike we]))
  else none

/-- Lines 132-137: the unconditional extensions, in order. -/
def baseExts (c : Config) (cost : Expr) : List Extension :=
  [Extension.finishAfter c.finish_after,
   Extension.trainingDataMonitoring [cost] true,
   Extension.printing true,
   Extension.checkpointNMT c.saveto c.save_freq]

/-- Lines 160-176: the `Sampler` appended when `config['hook_samples'] >= 1`
and the `F1Validator` appended when `config['f1_validation'] is not None`,
both referring to the one search model of the sampling graph. -/
def samplingExts (c : Config) (trS devS : DataStream)
    (sgOpt : Option SamplingGraph) : List Extension :=
  match sgOpt with
  | some sg =>
    (if 1 ≤ c.hook_samples then
       [Extension.sampler sg.searchModel trS c.src_vocab c.trg_vocab
         c.hook_samples c.sampling_freq c.src_vocab_size]
     else []) ++
    (if c.f1_validation ≠ none then
       [Extension.f1Validator sg.samples c sg.searchModel devS
         c.normalized_f1 c.f1_val_freq]
     else [])
  | none => []

/-- Lines 160-186: the conditionally appended extensions, in append order:
`Sampler` when `config['hook_samples'] >= 1`, `F1Validator` when
`config['f1_validation'] is not None`, `LoadNMT` when `config['reload']`,
`Plot` when `use_bokeh and BOKEH_AVAILABLE`. -/
def optionalExts (c : Config) (trS devS : DataStream) (useBokeh bokehAvailable : Bool)
    (sgOpt : Option SamplingGraph) : List Extension :=
  samplingExts c trS devS sgOpt ++
  (if c.reload then [Extension.loadNMT c.saveto] else []) ++
  (if useBokeh && bokehAvailable then
     [Extension.plot "Cs-En" [["decoder_cost_cost"]] true]
   else [])

/-- The record `main` assembles once the cost and (optionally) the sampling
graph exist. -/
def mainResultOf (c : Config) (encoder : Encoder) (decoder : Decoder) (cost : Expr)
    (sgOpt : Option SamplingGraph) (trS devS : DataStream)
    (useBokeh bokehAvailable : Bool) : MainResult :=
  { encoder := encoder
    decoder := decoder
    cost := cost
    cg := regularize c cost
    samplingGraph := sgOpt
    extensions := baseExts c cost ++ optionalExts c trS devS useBokeh bokehAvailable sgOpt
    algorithm :=
      { cost := cost
        parametersFrom := regularize c cost
        stepRule := [StepComponent.stepClipping c.step_clipping,
                     StepComponent.evaledRule c.step_rule] } }

/-- `main(config, tr_stream, dev_stream, use_bokeh)`.  `bokehAvailable` embeds
the module-level `BOKEH_AVAILABLE` flag.  When `config["input"]` is neither
`"words"` nor `"audio"`, no branch defines `cost` and line 79
(`ComputationGraph(cost)`) raises `NameError`; when the sampling block runs
with such an input, `sampling_representation` is likewise undefined at
line 153.  Both surface as uncaught errors. -/
def main (c : Config) (trS devS : DataStream) (useBokeh bokehAvailable : Bool) :
    Except MainError MainResult :=
  match buildGraph c with
  | none => Except.error (MainError.nameError "cost")
  | some (encoder, decoder, cost) =>
    if 1 ≤ c.hook_samples ∨ c.f1_validation ≠ none then
      match buildSamplingGraph c encoder decoder with
      | none => Except.error (MainError.nameError "sampling_representation")
      | some sg =>
        Except.ok (mainResultOf c encoder decoder cost (some sg) trS devS useBokeh bokehAvailable)
    else
      Except.ok (mainResultOf c encoder decoder cost none trS devS useBokeh bokehAvailable)

end NMT

namespace NMT

/-- A successful `buildGraph` means the input key selected one of the two
branches. -/
theorem buildGraph_input (c : Config) (t : Encoder × Decoder × Expr)
    (h : buildGraph c = some t) : c.input = "words" ∨ c.input = "audio" := by
  by_cases hw : c.input = "words"
  · exact Or.inl hw
  · by_cases ha : c.input = "audio"
    · exact Or.inr ha
    · simp [buildGraph, hw, ha] at h

/-- On either valid input the sampling block defines its representation. -/
theorem buildSamplingGraph_isSome (c : Config) (e : Encoder) (d : Decoder)
    (h : c.input = "words" ∨ c.input = "audio") :
    ∃ sg, buildSamplingGraph c e d = some sg := by
  rcases h with h | h <;> simp [buildSamplingGraph, h]

/-- Inversion for a successful run of `main`: the graph was built, the
sampling graph exists, and the result is `mainResultOf` with the sampling
graph present exactly when the sampling block's condition held. -/
theorem main_ok_inv (c : Config) (trS devS : DataStream) (ub ba : Bool)
    (r : MainResult) (h : main c trS devS ub ba = Except.ok r) :
    ∃ encoder decoder cost,
      buildGraph c = some (encoder, decoder, cost) ∧
      ∃ sg, buildSamplingGraph c encoder decoder = some sg ∧
        r = mainResultOf c encoder decoder cost
              (if 1 ≤ c.hook_samples ∨ c.f1_validation ≠ none then some sg else none)
              trS devS ub ba := by
  unfold main at h
  rcases hbg : buildGraph c with _ | ⟨⟨encoder, decoder, cost⟩⟩
  · rw [hbg] at h
    exact absurd h (by simp)
  · rw [hbg] at h
    dsimp only at h
    obtain ⟨sg, hsg⟩ :=
      buildSamplingGraph_isSome c encoder decoder (buildGraph_input c _ hbg)
    refine ⟨encoder, decoder, cost, rfl, sg, hsg, ?_⟩
    by_cases hs : 1 ≤ c.hook_samples ∨ c.f1_validation ≠ none
    · rw [if_pos hs] at h ⊢
      rw [hsg] at h
      dsimp only at h
      simpa using h.symm
    · rw [if_neg hs] at h ⊢
      simpa using h.symm

/-- The dropout applications recorded by `regularize`. -/
theorem regularize_dropoutApplications (c : Config) (cost : Expr) :
    (regularize c cost).dropoutApplications =
      if c.dropout < 1 then [("maxout_apply_output", c.dropout)] else [] := by
  unfold regularize
  by_cases h1 : c.dropout < 1 <;> by_cases h2 : 0 < c.weight_noise_ff <;>
    simp [h1, h2, CG.dropoutApplications]

/-- The weight-noise applications recorded by `regularize`. -/
theorem regularize_noiseApplications (c : Config) (cost : Expr) :
    (regularize c cost).noiseApplications =
      if 0 < c.weight_noise_ff then [(noiseTargets, c.weight_noise_ff)] else [] := by
  unfold regularize
  by_cases h1 : c.dropout < 1 <;> by_cases h2 : 0 < c.weight_noise_ff <;>
    simp [h1, h2, CG.noiseApplications]

/-- Claim C7: `main` implements no error handling of its own.  A
`config['input']` value that is neither `"words"` nor `"audio"` leaves `cost`
undefined, and the subsequent use of it at `ComputationGraph(cost)` fails;
the failure propagates as a raw uncaught exception (here: the `NameError`
error value of the embedding), not recovered or mapped to a result. -/
theorem claim_C7_no_error_handling (c : Config) (trS devS : DataStream)
    (ub ba : Bool) (h1 : c.input ≠ "words") (h2 : c.input ≠ "audio") :
    main c trS devS ub ba = Except.error (MainError.nameError "cost") := by
  simp [main, buildGraph, h1, h2]

/-- Claim C10: the training algorithm's step rule is always
`CompositeRule([StepClipping(config['step_clipping']), R()])` where `R` is the
object obtained by evaluating the string `config['step_rule']` with `eval`;
clipping precedes the configured rule, and the raw configuration string is the
one fed to `eval`. -/
theorem claim_C10_step_rule (c : Config) (trS devS : DataStream) (ub ba : Bool)
    (r : MainResult) (h : main c trS devS ub ba = Except.ok r) :
    r.algorithm.stepRule =
      [StepComponent.stepClipping c.step_clipping,
       StepComponent.evaledRule c.step_rule] ∧
    r.algorithm.cost = r.cost := by
  obtain ⟨encoder, decoder, cost, hbg, sg, hsg, hr⟩ :=
    main_ok_inv c trS devS ub ba r h
  subst hr
  exact ⟨rfl, rfl⟩

/-- Claim C5: dropout is applied to the computation graph iff
`config['dropout'] < 1.0`, and then it is a single `apply_dropout` targeting
exactly the intermediary variables named `maxout_apply_output` at level
`config['dropout']`. -/
theorem claim_C5_dropout (c : Config) (trS devS : DataStream) (ub ba : Bool)
    (r : MainResult) (h : main c trS devS ub ba = Except.ok r) :
    r.cg.dropoutApplications =
      if c.dropout < 1 then [("maxout_apply_output", c.dropout)] else [] := by
  obtain ⟨encoder, decoder, cost, hbg, sg, hsg, hr⟩ :=
    main_ok_inv c trS devS ub ba r h
  subst hr
  exact regularize_dropoutApplications c cost

/-- Claim C6: weight noise is applied to the computation graph iff
`config['weight_noise_ff'] > 0.0`, and then it is a single `apply_noise` over
exactly the parameters of the encoder's `lookup`, `fwd_fork` and `back_fork`
and the decoder's `readout`, `fork` and `state_init`, at level
`config['weight_noise_ff']`. -/
theorem claim_C6_weight_noise (c : Config) (trS devS : DataStream) (ub ba : Bool)
    (r : MainResult) (h : main c trS devS ub ba = Except.ok r) :
    r.cg.noiseApplications =
      if 0 < c.weight_noise_ff then
        [([ParamSel.encLookup, ParamSel.encFwdFork, ParamSel.encBackFork,
           ParamSel.decReadout, ParamSel.decFork, ParamSel.decStateInit],
          c.weight_noise_ff)]
      else [] := by
  obtain ⟨encoder, decoder, cost, hbg, sg, hsg, hr⟩ :=
    main_ok_inv c trS devS ub ba r h
  subst hr
  exact regularize_noiseApplications c cost

/-- Claim C4: for every configuration, the extension list always starts, in
this order and before any optional extension, with
`FinishAfter(after_n_batches=config['finish_after'])`,
`TrainingDataMonitoring([cost], after_batch=True)`,
`Printing(after_batch=True)` and
`CheckpointNMT(config['saveto'], every_n_batches=config['save_freq'])`;
checkpointing is unconditional. -/
theorem claim_C4_base_extensions (c : Config) (trS devS : DataStream)
    (ub ba : Bool) (r : MainResult) (h : main c trS devS ub ba = Except.ok r) :
    r.extensions.take 4 =
      [Extension.finishAfter c.finish_after,
       Extension.trainingDataMonitoring [r.cost] true,
       Extension.printing true,
       Extension.checkpointNMT c.saveto c.save_freq] := by
  obtain ⟨encoder, decoder, cost, hbg, sg, hsg, hr⟩ :=
    main_ok_inv c trS devS ub ba r h
  subst hr
  rfl

end NMT

namespace NMT

/-- Whenever the input-dependent branch defines the graph, `main` runs to
completion and its result holds that branch's encoder, decoder and cost. -/
theorem main_input_ok (c : Config) (trS devS : DataStream) (ub ba : Bool)
    (encoder : Encoder) (decoder : Decoder) (cost : Expr)
    (hbg : buildGraph c = some (encoder, decoder, cost)) :
    ∃ r, main c trS devS ub ba = Except.ok r ∧
      r.encoder = encoder ∧ r.decoder = decoder ∧ r.cost = cost := by
  obtain ⟨sg, hsg⟩ :=
    buildSamplingGraph_isSome c encoder decoder (buildGraph_input c _ hbg)
  by_cases hs : 1 ≤ c.hook_samples ∨ c.f1_validation ≠ none
  · refine ⟨mainResultOf c encoder decoder cost (some sg) trS devS ub ba,
      ?_, rfl, rfl, rfl⟩
    unfold main
    rw [hbg]
    dsimp only
    rw [if_pos hs, hsg]
  · refine ⟨mainResultOf c encoder decoder cost none trS devS ub ba,
      ?_, rfl, rfl, rfl⟩
    unfold main
    rw [hbg]
    dsimp only
    rw [if_neg hs]

/-- Claim C1: `config['input']` selects the model-construction branch.
`"words"` builds a `BidirectionalEncoder` over the word-index and mask
matrices and takes the cost from its output; `"audio"` builds a
`BidirectionalAudioEncoder` over audio features, audio mask, word-end indices
and their masks and takes the cost from its output; no other branch of graph
construction exists (any other input defines no graph and `main` cannot
succeed). -/
theorem claim_C1_input_selects_branch (c : Config) (trS devS : DataStream)
    (ub ba : Bool) :
    (c.input = "words" →
      ∃ r, main c trS devS ub ba = Except.ok r ∧
        r.encoder = Encoder.bidirectional c.src_vocab_size c.enc_embed c.enc_nhids ∧
        r.decoder = ⟨c.trg_vocab_size, c.dec_embed, c.dec_nhids, c.enc_nhids * 2⟩ ∧
        r.cost = Expr.decoderCost r.decoder
          (Expr.encoderApply r.encoder
            [TheanoVar.lmatrix "words", TheanoVar.matrix "words_mask"])
          (TheanoVar.matrix "words_mask")
          (TheanoVar.lmatrix "punctuation_marks")
          (TheanoVar.matrix "punctuation_marks_mask")) ∧
    (c.input = "audio" →
      ∃ r, main c trS devS ub ba = Except.ok r ∧
        r.encoder = Encoder.bidirectionalAudio c.audio_feat_size c.enc_embed c.enc_nhids ∧
        r.decoder = ⟨c.trg_vocab_size, c.dec_embed, c.dec_nhids, c.enc_nhids * 2⟩ ∧
        r.cost = Expr.decoderCost r.decoder
          (Expr.encoderApply r.encoder
            [TheanoVar.ftensor3 "audio", TheanoVar.matrix "audio_mask",
             TheanoVar.lmatrix "words_ends", TheanoVar.matrix "words_ends_mask"])
          (TheanoVar.matrix "punctuation_marks_mask")
          (TheanoVar.lmatrix "punctuation_marks")
          (TheanoVar.matrix "punctuation_marks_mask")) ∧
    (c.input ≠ "words" → c.input ≠ "audio" →
      ∀ r, main c trS devS ub ba ≠ Except.ok r) := by
  refine ⟨fun hw => ?_, fun ha => ?_, fun hw ha r hm => ?_⟩
  · obtain ⟨r, hm, he, hd, hc⟩ := main_input_ok c trS devS ub ba
      (Encoder.bidirectional c.src_vocab_size c.enc_embed c.enc_nhids)
      ⟨c.trg_vocab_size, c.dec_embed, c.dec_nhids, c.enc_nhids * 2⟩
      (Expr.decoderCost ⟨c.trg_vocab_size, c.dec_embed, c.dec_nhids, c.enc_nhids * 2⟩
        (Expr.encoderApply (Encoder.bidirectional c.src_vocab_size c.enc_embed c.enc_nhids)
          [TheanoVar.lmatrix "words", TheanoVar.matrix "words_mask"])
        (TheanoVar.matrix "words_mask")
        (TheanoVar.lmatrix "punctuation_marks")
        (TheanoVar.matrix "punctuation_marks_mask"))
      (by simp [buildGraph, hw])
    refine ⟨r, hm, he, hd, ?_⟩
    rw [hc, hd, he]
  · obtain ⟨r, hm, he, hd, hc⟩ := main_input_ok c trS devS ub ba
      (Encoder.bidirectionalAudio c.audio_feat_size c.enc_embed c.enc_nhids)
      ⟨c.trg_vocab_size, c.dec_embed, c.dec_nhids, c.enc_nhids * 2⟩
      (Expr.decoderCost ⟨c.trg_vocab_size, c.dec_embed, c.dec_nhids, c.enc_nhids * 2⟩
        (Expr.encoderApply (Encoder.bidirectionalAudio c.audio_feat_size c.enc_embed c.enc_nhids)
          [TheanoVar.ftensor3 "audio", TheanoVar.matrix "audio_mask",
           TheanoVar.lmatrix "words_ends", TheanoVar.matrix "words_ends_mask"])
        (TheanoVar.matrix "punctuation_marks_mask")
        (TheanoVar.lmatrix "punctuation_marks")
        (TheanoVar.matrix "punctuation_marks_mask"))
      (by simp [buildGraph, ha])
    refine ⟨r, hm, he, hd, ?_⟩
    rw [hc, hd, he]
  · simp [main, buildGraph, hw, ha] at hm

set_option maxHeartbeats 2000000 in
/-- Claim C2: the `Sampler` extension is attached iff
`config['hook_samples'] >= 1`, and any attached `Sampler` was constructed with
`hook_samples=config['hook_samples']`, `every_n_batches=config['sampling_freq']`,
`src_vocab_size=config['src_vocab_size']` and the training data stream. -/
theorem claim_C2_sampler_extension (c : Config) (trS devS : DataStream)
    (ub ba : Bool) (r : MainResult) (h : main c trS devS ub ba = Except.ok r) :
    ((∃ e ∈ r.extensions, e.isSampler = true) ↔ 1 ≤ c.hook_samples) ∧
    (∀ m s sv tv hs freq svs,
      Extension.sampler m s sv tv hs freq svs ∈ r.extensions →
      hs = c.hook_samples ∧ freq = c.sampling_freq ∧
      svs = c.src_vocab_size ∧ s = trS) := by
  obtain ⟨encoder, decoder, cost, hbg, sg, hsg, hr⟩ :=
    main_ok_inv c trS devS ub ba r h
  subst hr
  by_cases hhook : 1 ≤ c.hook_samples <;>
  by_cases hf1 : c.f1_validation = none <;>
  by_cases hre : c.reload = true <;>
  by_cases hpl : (ub && ba) = true <;>
    (simp [mainResultOf, baseExts, optionalExts, samplingExts, hhook, hf1, hre,
      hpl, Extension.isSampler] <;> tauto)

set_option maxHeartbeats 2000000 in
/-- Claim C3: the `F1Validator` extension is attached iff
`config['f1_validation'] is not None`, and any attached `F1Validator` was
constructed with `normalize=config['normalized_f1']`,
`every_n_batches=config['f1_val_freq']` and the development data stream. -/
theorem claim_C3_f1validator_extension (c : Config) (trS devS : DataStream)
    (ub ba : Bool) (r : MainResult) (h : main c trS devS ub ba = Except.ok r) :
    ((∃ e ∈ r.extensions, e.isF1Validator = true) ↔ c.f1_validation ≠ none) ∧
    (∀ sv cfg m s nz freq,
      Extension.f1Validator sv cfg m s nz freq ∈ r.extensions →
      nz = c.normalized_f1 ∧ freq = c.f1_val_freq ∧ s = devS) := by
  obtain ⟨encoder, decoder, cost, hbg, sg, hsg, hr⟩ :=
    main_ok_inv c trS devS ub ba r h
  subst hr
  by_cases hhook : 1 ≤ c.hook_samples <;>
  by_cases hf1 : c.f1_validation = none <;>
  by_cases hre : c.reload = true <;>
  by_cases hpl : (ub && ba) = true <;>
    (simp [mainResultOf, baseExts, optionalExts, samplingExts, hhook, hf1, hre,
      hpl, Extension.isF1Validator] <;> tauto)

end NMT

namespace NMT

/-- When `config['reload']` holds, the extension list splits around the
`LoadNMT` extension with every checkpoint, sampler and F1-validation
extension in the prefix. -/
theorem loadNMT_after_others (c : Config) (cost : Expr) (trS devS : DataStream)
    (ub ba : Bool) (sgOpt : Option SamplingGraph) (hre : c.reload = true) :
    ∃ pre post,
      baseExts c cost ++ optionalExts c trS devS ub ba sgOpt =
        pre ++ Extension.loadNMT c.saveto :: post ∧
      ∀ e ∈ baseExts c cost ++ optionalExts c trS devS ub ba sgOpt,
        (e.isCheckpointNMT = true ∨ e.isSampler = true ∨ e.isF1Validator = true) →
        e ∈ pre := by
  refine ⟨baseExts c cost ++ samplingExts c trS devS sgOpt,
    (if ub && ba then [Extension.plot "Cs-En" [["decoder_cost_cost"]] true] else []),
    ?_, ?_⟩
  · simp [optionalExts, hre]
  · intro e he hpred
    simp only [optionalExts, List.append_assoc, List.mem_append] at he ⊢
    rcases he with he | he | he | he
    · exact Or.inl he
    · exact Or.inr he
    · rw [if_pos hre] at he
      simp only [List.mem_singleton] at he
      subst he
      simp [Extension.isCheckpointNMT, Extension.isSampler,
        Extension.isF1Validator] at hpred
    · by_cases hpl : (ub && ba) = true
      · rw [if_pos hpl] at he
        simp only [List.mem_singleton] at he
        subst he
        simp [Extension.isCheckpointNMT, Extension.isSampler,
          Extension.isF1Validator] at hpred
      · rw [if_neg hpl] at he
        simp at he

set_option maxHeartbeats 2000000 in
/-- Claim C8: the `LoadNMT(config['saveto'])` extension is appended iff
`config['reload']` is truthy, and when present it appears after the
checkpointing, sampling and F1-validation extensions. -/
theorem claim_C8_reload_extension (c : Config) (trS devS : DataStream)
    (ub ba : Bool) (r : MainResult) (h : main c trS devS ub ba = Except.ok r) :
    ((Extension.loadNMT c.saveto ∈ r.extensions) ↔ c.reload = true) ∧
    (c.reload = true → ∃ pre post,
      r.extensions = pre ++ Extension.loadNMT c.saveto :: post ∧
      ∀ e ∈ r.extensions,
        (e.isCheckpointNMT = true ∨ e.isSampler = true ∨ e.isF1Validator = true) →
        e ∈ pre) := by
  obtain ⟨encoder, decoder, cost, hbg, sg, hsg, hr⟩ :=
    main_ok_inv c trS devS ub ba r h
  subst hr
  constructor
  · by_cases hhook : 1 ≤ c.hook_samples <;>
    by_cases hf1 : c.f1_validation = none <;>
    by_cases hre : c.reload = true <;>
    by_cases hpl : (ub && ba) = true <;>
      simp [mainResultOf, baseExts, optionalExts, samplingExts, hhook, hf1,
        hre, hpl]
  · intro hre
    exact loadNMT_after_others c cost trS devS ub ba _ hre

set_option maxHeartbeats 2000000 in
/-- Claim C9: the sampling/beam-search computation graph is constructed iff
`config['hook_samples'] >= 1` or `config['f1_validation'] is not None`, and
when both a `Sampler` and an `F1Validator` are attached they hold the same
single search model, the one of that sampling graph. -/
theorem claim_C9_shared_search_model (c : Config) (trS devS : DataStream)
    (ub ba : Bool) (r : MainResult) (h : main c trS devS ub ba = Except.ok r) :
    (r.samplingGraph.isSome = true ↔
      (1 ≤ c.hook_samples ∨ c.f1_validation ≠ none)) ∧
    (∀ e₁ ∈ r.extensions, ∀ e₂ ∈ r.extensions,
      e₁.isSampler = true → e₂.isF1Validator = true →
      e₁.searchModelOf = e₂.searchModelOf ∧
      e₁.searchModelOf = Option.map SamplingGraph.searchModel r.samplingGraph) := by
  obtain ⟨encoder, decoder, cost, hbg, sg, hsg, hr⟩ :=
    main_ok_inv c trS devS ub ba r h
  subst hr
  by_cases hhook : 1 ≤ c.hook_samples <;>
  by_cases hf1 : c.f1_validation = none <;>
  by_cases hre : c.reload = true <;>
  by_cases hpl : (ub && ba) = true <;>
    simp [mainResultOf, baseExts, optionalExts, samplingExts, hhook, hf1, hre,
      hpl, Extension.isSampler, Extension.isF1Validator,
      Extension.searchModelOf]

end NMT

namespace NMT

/-- A concrete words-input configuration with sampling, F1 validation,
dropout, weight noise and reloading all enabled. -/
def cfgWords : Config :=
  { input := "words", src_vocab_size := 5, trg_vocab_size := 4, enc_embed := 3,
    enc_nhids := 2, dec_embed := 3, dec_nhids := 2, audio_feat_size := 7,
    weight_scale := 1, dropout := 0, weight_noise_ff := 1, step_clipping := 1,
    step_rule := "AdaDelta", saveto := "model.npz", save_freq := 10,
    finish_after := 100, hook_samples := 2, sampling_freq := 5,
    f1_validation := some "dev.txt", f1_val_freq := 20, normalized_f1 := true,
    src_vocab := "src.vocab", trg_vocab := "trg.vocab", reload := true }

/-- A concrete audio-input configuration with every optional feature off. -/
def cfgAudio : Config :=
  { input := "audio", src_vocab_size := 5, trg_vocab_size := 4, enc_embed := 3,
    enc_nhids := 2, dec_embed := 3, dec_nhids := 2, audio_feat_size := 7,
    weight_scale := 1, dropout := 1, weight_noise_ff := 0, step_clipping := 1,
    step_rule := "AdaDelta", saveto := "model.npz", save_freq := 10,
    finish_after := 100, hook_samples := 0, sampling_freq := 5,
    f1_validation := none, f1_val_freq := 20, normalized_f1 := false,
    src_vocab := "src.vocab", trg_vocab := "trg.vocab", reload := false }

/-- A configuration whose input key selects no branch at all. -/
def cfgBad : Config := { cfgWords with input := "mfcc" }

/-- The concrete result of `main` on `cfgWords`. -/
def resultWords : MainResult :=
  (main cfgWords DataStream.tr DataStream.dev false false).toOption.get (by decide)

/-- The concrete result of `main` on `cfgAudio`. -/
def resultAudio : MainResult :=
  (main cfgAudio DataStream.tr DataStream.dev false false).toOption.get (by decide)

/-- Witness for C1: on `cfgWords` the words branch runs. -/
theorem claim_C1_witness :
    ∃ r, main cfgWords DataStream.tr DataStream.dev false false = Except.ok r ∧
      r.encoder = Encoder.bidirectional cfgWords.src_vocab_size
        cfgWords.enc_embed cfgWords.enc_nhids ∧
      r.decoder = ⟨cfgWords.trg_vocab_size, cfgWords.dec_embed,
        cfgWords.dec_nhids, cfgWords.enc_nhids * 2⟩ ∧
      r.cost = Expr.decoderCost r.decoder
        (Expr.encoderApply r.encoder
          [TheanoVar.lmatrix "words", TheanoVar.matrix "words_mask"])
        (TheanoVar.matrix "words_mask")
        (TheanoVar.lmatrix "punctuation_marks")
        (TheanoVar.matrix "punctuation_marks_mask") :=
  (claim_C1_input_selects_branch cfgWords DataStream.tr DataStream.dev
    false false).1 rfl

/-- Witness for C2 at `cfgWords` (hook_samples = 2). -/
theorem claim_C2_witness :
    ((∃ e ∈ resultWords.extensions, e.isSampler = true) ↔
      1 ≤ cfgWords.hook_samples) ∧
    (∀ m s sv tv hs freq svs,
      Extension.sampler m s sv tv hs freq svs ∈ resultWords.extensions →
      hs = cfgWords.hook_samples ∧ freq = cfgWords.sampling_freq ∧
      svs = cfgWords.src_vocab_size ∧ s = DataStream.tr) :=
  claim_C2_sampler_extension cfgWords DataStream.tr DataStream.dev false false
    resultWords (by rfl)

/-- Witness for C3 at `cfgWords` (f1_validation present). -/
theorem claim_C3_witness :
    ((∃ e ∈ resultWords.extensions, e.isF1Validator = true) ↔
      cfgWords.f1_validation ≠ none) ∧
    (∀ sv cfg m s nz freq,
      Extension.f1Validator sv cfg m s nz freq ∈ resultWords.extensions →
      nz = cfgWords.normalized_f1 ∧ freq = cfgWords.f1_val_freq ∧
      s = DataStream.dev) :=
  claim_C3_f1validator_extension cfgWords DataStream.tr DataStream.dev
    false false resultWords (by rfl)

/-- Witness for C4 at `cfgAudio` (all optional extensions off). -/
theorem claim_C4_witness :
    resultAudio.extensions.take 4 =
      [Extension.finishAfter cfgAudio.finish_after,
       Extension.trainingDataMonitoring [resultAudio.cost] true,
       Extension.printing true,
       Extension.checkpointNMT cfgAudio.saveto cfgAudio.save_freq] :=
  claim_C4_base_extensions cfgAudio DataStream.tr DataStream.dev false false
    resultAudio (by rfl)

/-- Witness for C5 at `cfgAudio` (dropout = 1, so no dropout is applied). -/
theorem claim_C5_witness :
    resultAudio.cg.dropoutApplications =
      if cfgAudio.dropout < 1 then [("maxout_apply_output", cfgAudio.dropout)]
      else [] :=
  claim_C5_dropout cfgAudio DataStream.tr DataStream.dev false false
    resultAudio (by rfl)

/-- Witness for C6 at `cfgAudio` (weight_noise_ff = 0, so no noise). -/
theorem claim_C6_witness :
    resultAudio.cg.noiseApplications =
      if 0 < cfgAudio.weight_noise_ff then
        [([ParamSel.encLookup, ParamSel.encFwdFork, ParamSel.encBackFork,
           ParamSel.decReadout, ParamSel.decFork, ParamSel.decStateInit],
          cfgAudio.weight_noise_ff)]
      else [] :=
  claim_C6_weight_noise cfgAudio DataStream.tr DataStream.dev false false
    resultAudio (by rfl)

/-- Witness for C7 at a configuration whose input is `"mfcc"`. -/
theorem claim_C7_witness :
    main cfgBad DataStream.tr DataStream.dev false false =
      Except.error (MainError.nameError "cost") :=
  claim_C7_no_error_handling cfgBad DataStream.tr DataStream.dev false false
    (by decide) (by decide)

/-- Witness for C8 at `cfgWords` (reload enabled). -/
theorem claim_C8_witness :
    ((Extension.loadNMT cfgWords.saveto ∈ resultWords.extensions) ↔
      cfgWords.reload = true) ∧
    (cfgWords.reload = true → ∃ pre post,
      resultWords.extensions = pre ++ Extension.loadNMT cfgWords.saveto :: post ∧
      ∀ e ∈ resultWords.extensions,
        (e.isCheckpointNMT = true ∨ e.isSampler = true ∨ e.isF1Validator = true) →
        e ∈ pre) :=
  claim_C8_reload_extension cfgWords DataStream.tr DataStream.dev false false
    resultWords (by rfl)

/-- Witness for C9 at `cfgWords` (both `Sampler` and `F1Validator` attached). -/
theorem claim_C9_witness :
    (resultWords.samplingGraph.isSome = true ↔
      (1 ≤ cfgWords.hook_samples ∨ cfgWords.f1_validation ≠ none)) ∧
    (∀ e₁ ∈ resultWords.extensions, ∀ e₂ ∈ resultWords.extensions,
      e₁.isSampler = true → e₂.isF1Validator = true →
      e₁.searchModelOf = e₂.searchModelOf ∧
      e₁.searchModelOf =
        Option.map SamplingGraph.searchModel resultWords.samplingGraph) :=
  claim_C9_shared_search_model cfgWords DataStream.tr DataStream.dev
    false false resultWords (by rfl)

/-- Witness for C10 at `cfgAudio`. -/
theorem claim_C10_witness :
    resultAudio.algorithm.stepRule =
      [StepComponent.stepClipping cfgAudio.step_clipping,
       StepComponent.evaledRule cfgAudio.step_rule] ∧
    resultAudio.algorithm.cost = resultAudio.cost :=
  claim_C10_step_rule cfgAudio DataStream.tr DataStream.dev false false
    resultAudio (by rfl)

end NMT
